import Mathlib

/-!
# Verification of the ShopHub backend registration and authentication flows

A shallow embedding of the registration (verification-code) flow and the
login (remote-provider-with-local-fallback) flow of `backend/app.py`,
together with theorems settling the specified properties.

The SQLite `users` table is modelled as a list of records, the in-process
`verification_codes` dict as an association list keyed by lower-cased
email, and the external world (SHA-256 hashing, the `ADMIN_EMAIL`
environment variable, Firebase REST / Admin SDK outcomes, SMTP delivery)
as an explicit `Env` of oracles.  Wall-clock time is passed to each
operation as a natural number of seconds.
-/

namespace ShopHub

/-- A row of the `users` table (`password` holds the stored hash). -/
structure UserRecord where
  id : Nat
  name : String
  email : String
  password : String
  phone : String
  deriving Repr, DecidableEq

/-- An entry of the in-memory `verification_codes` dict:
`{'code', 'expires_at', 'name', 'password', 'phone'}`. -/
structure VerificationTicket where
  code : String
  expires_at : Nat
  name : String
  password : String
  phone : String
  deriving Repr, DecidableEq

/-- The mutable state touched by the two flows: the `users` table (with the
autoincrement counter) and the `verification_codes` dict. -/
structure DBState where
  users : List UserRecord
  nextId : Nat
  verification_codes : List (String × VerificationTicket)
  deriving Repr, DecidableEq

/-- Profile data returned by `firebase_auth.get_user`. -/
structure FirebaseProfile where
  display_name : String
  phone_number : String
  deriving Repr, DecidableEq

/-- Raw outcome of the Firebase REST `signInWithPassword` call:
either a transport-level exception or an HTTP reply carrying
`localId` (on 200) / `error.message` (otherwise). -/
inductive FirebaseNet where
  | netError
  | reply (statusCode : Nat) (localId : Option String) (errorCode : Option String)
  deriving Repr, DecidableEq

/-- Outcome of `firebase_auth.create_user`. -/
inductive CreateAccountResult where
  | ok (uid : String)
  | emailExists
  | otherError
  deriving Repr, DecidableEq

/-- The external world: hashing primitive, configuration, and the three
external services (identity provider, profile store, mail transport). -/
structure Env where
  hashp : String → String
  adminEmail : String
  firebaseConfigured : Bool
  sendEmailOk : Bool
  signIn : String → String → FirebaseNet
  createAccount : String → String → String → CreateAccountResult
  getProfile : String → Option FirebaseProfile

/-- The sanitized user view returned to clients: id/name/email/phone,
never the password hash. -/
structure SanitizedUser where
  id : Nat
  name : String
  email : String
  phone : String
  deriving Repr, DecidableEq

/-- A JSON reply: `success: true` with an optional user object and message,
or `success: false` with a message and HTTP status. -/
inductive ApiResponse where
  | success (user : Option SanitizedUser) (message : String)
  | failure (message : String) (status : Nat)
  deriving Repr, DecidableEq

/-- `hashlib.sha256(password.encode()).hexdigest()`, supplied by the
environment. -/
def hash_password (env : Env) (password : String) : String :=
  env.hashp password

/-- `verify_password`: an empty stored hash is falsy and rejected;
otherwise compare with the hash of the candidate. -/
def verify_password (env : Env) (stored_hash : String) (candidate : String) : Bool :=
  if stored_hash = "" then false
  else stored_hash = hash_password env candidate

/-- `SELECT * FROM users WHERE email = ?` (first matching row). -/
def fetch_local_user (st : DBState) (email : String) : Option UserRecord :=
  st.users.find? (fun u => u.email == email)

/-- Dict lookup `verification_codes.get(k)`. -/
def dictFind (d : List (String × VerificationTicket)) (k : String) :
    Option VerificationTicket :=
  (d.find? (fun p => p.1 == k)).map (fun p => p.2)

/-- Dict assignment `verification_codes[k] = t` (replaces any entry at `k`). -/
def dictInsert (d : List (String × VerificationTicket)) (k : String)
    (t : VerificationTicket) : List (String × VerificationTicket) :=
  (k, t) :: d.filter (fun p => !(p.1 == k))

/-- Dict removal `verification_codes.pop(k, None)`. -/
def dictPop (d : List (String × VerificationTicket)) (k : String) :
    List (String × VerificationTicket) :=
  d.filter (fun p => !(p.1 == k))

/-- Python `str.lower()` (ASCII data): lower-case every character.  Stated
structurally so that concrete instances evaluate inside the kernel. -/
def strLower (s : String) : String :=
  ⟨s.data.map Char.toLower⟩

/-- `VERIFICATION_CODE_EXPIRY = 600` seconds. -/
def VERIFICATION_CODE_EXPIRY : Nat := 600

/-- `email.split('@')[0]`: the part of the address before the first `@`. -/
def emailLocalPart (email : String) : String :=
  ⟨email.data.takeWhile (fun c => !(c == '@'))⟩

/-- `build_user_response`: sanitized user view, or a (status-200) failure
body when the row is absent. -/
def build_user_response : Option UserRecord → ApiResponse
  | none => .failure "User not found" 200
  | some u =>
      .success
        (some { id := u.id
                name := u.name
                email := u.email
                phone := if u.phone = "" then "" else u.phone }) ""

/-- The `if firebase_uid:` guard plus `firebase_auth.get_user(firebase_uid)`
inside `ensure_local_user_record`: an absent or empty (falsy) uid, a
`UserNotFoundError`, or any other SDK exception yields no profile data. -/
def lookupProfile (env : Env) (firebase_uid : Option String) : Option FirebaseProfile :=
  match firebase_uid with
  | some uid => if uid = "" then none else env.getProfile uid
  | none => none

/-- `ensure_local_user_record`: return the existing row for `email`, or
insert a mirror row (name defaulting to the email local-part overridden by
a non-empty Firebase display name, phone defaulting to empty overridden by
a non-empty Firebase phone number, password stored hashed) and re-fetch it. -/
def ensure_local_user_record (env : Env) (st : DBState) (email password : String)
    (firebase_uid : Option String) : Option UserRecord × DBState :=
  match fetch_local_user st email with
  | some user => (some user, st)
  | none =>
      let name0 := emailLocalPart email
      let profile : Option FirebaseProfile := lookupProfile env firebase_uid
      let name :=
        match profile with
        | some p => if p.display_name = "" then name0 else p.display_name
        | none => name0
      let phone :=
        match profile with
        | some p => if p.phone_number = "" then "" else p.phone_number
        | none => ""
      let newUser : UserRecord :=
        { id := st.nextId
          name := name
          email := email
          password := hash_password env password
          phone := phone }
      let st' : DBState :=
        { st with users := st.users ++ [newUser], nextId := st.nextId + 1 }
      (fetch_local_user st' email, st')

/-- Result of `authenticate_locally`. -/
inductive LocalAuthResult where
  | ok (user : UserRecord)
  | fail (message : String) (status : Nat)
  deriving Repr, DecidableEq

/-- `authenticate_locally`: look up the row, then compare password hashes. -/
def authenticate_locally (env : Env) (st : DBState) (email password : String) :
    LocalAuthResult :=
  match fetch_local_user st email with
  | none => .fail "Invalid email or password" 401
  | some user =>
      if verify_password env user.password password then .ok user
      else .fail "Invalid email or password" 401

/-- Result of `sign_in_with_firebase`. -/
inductive FirebaseSignIn where
  | ok (localId : Option String)
  | fail (message : String) (status : Nat)
  deriving Repr, DecidableEq

/-- The friendly-message table of `sign_in_with_firebase`. -/
def friendly_message : Option String → String
  | some "EMAIL_NOT_FOUND" => "Invalid email or password"
  | some "INVALID_PASSWORD" => "Invalid email or password"
  | some "USER_DISABLED" => "Your account has been disabled. Please contact support."
  | _ => "Unable to sign in with Firebase"

/-- `sign_in_with_firebase`: a transport exception becomes a 503; a non-200
reply becomes a 401 with a friendly message; a 200 reply succeeds. -/
def sign_in_with_firebase (env : Env) (email password : String) : FirebaseSignIn :=
  match env.signIn email password with
  | .netError =>
      .fail "Authentication service is unreachable. Please try again shortly." 503
  | .reply statusCode localId errorCode =>
      if statusCode = 200 then .ok localId
      else .fail (friendly_message errorCode) 401

/-- `POST /api/users/send-verification` (`send_verification`).  `now` is
`time.time()` and `code` the value drawn by `generate_verification_code`. -/
def send_verification (env : Env) (st : DBState) (now : Nat) (code : String)
    (name email password phone : String) : ApiResponse × DBState :=
  if name = "" ∨ email = "" ∨ password = "" ∨ phone = "" then
    (.failure "All fields are required" 400, st)
  else if (fetch_local_user st email).isSome then
    (.failure "Email already registered" 400, st)
  else if (strLower email) = (strLower env.adminEmail) then
    (.failure "This email is reserved for admin use." 400, st)
  else
    let expires_at := now + VERIFICATION_CODE_EXPIRY
    let ticket : VerificationTicket :=
      { code := code
        expires_at := expires_at
        name := name
        password := password
        phone := phone }
    let st1 : DBState :=
      { st with verification_codes :=
          dictInsert st.verification_codes (strLower email) ticket }
    if env.sendEmailOk then
      (.success none "Verification code sent to your email. Please check your inbox.",
       st1)
    else
      (.failure "Failed to send verification email. Please try again." 500,
       { st1 with verification_codes :=
           dictPop st1.verification_codes (strLower email) })

/-- `POST /api/users/register` (`register_user`). -/
def register_user (env : Env) (st : DBState) (now : Nat)
    (name email password phone verification_code : String) :
    ApiResponse × DBState :=
  if name = "" ∨ email = "" ∨ password = "" ∨ phone = "" then
    (.failure "All fields are required" 400, st)
  else if verification_code = "" then
    (.failure "Verification code is required" 400, st)
  else if (fetch_local_user st email).isSome then
    (.failure "Email already registered" 400, st)
  else
    match dictFind st.verification_codes (strLower email) with
    | none =>
        (.failure "Verification code not found. Please request a new code." 400, st)
    | some stored_data =>
        if stored_data.expires_at < now then
          (.failure "Verification code has expired. Please request a new code." 400,
           { st with verification_codes :=
               dictPop st.verification_codes (strLower email) })
        else if stored_data.code ≠ verification_code then
          (.failure "Invalid verification code. Please try again." 400, st)
        else if stored_data.name ≠ name ∨ stored_data.password ≠ password ∨
            stored_data.phone ≠ phone then
          (.failure "Registration data mismatch. Please start over." 400, st)
        else
          match env.createAccount email password name.trim with
          | .ok _ =>
              let newUser : UserRecord :=
                { id := st.nextId
                  name := name
                  email := email
                  password := hash_password env password
                  phone := phone }
              (.success
                 (some { id := st.nextId
                         name := name
                         email := email
                         phone := phone }) "",
               { st with
                 users := st.users ++ [newUser]
                 nextId := st.nextId + 1
                 verification_codes :=
                   dictPop st.verification_codes (strLower email) })
          | .emailExists =>
              (.failure "Email already registered" 400,
               { st with verification_codes :=
                   dictPop st.verification_codes (strLower email) })
          | .otherError =>
              (.failure "Registration failed" 500,
               { st with verification_codes :=
                   dictPop st.verification_codes (strLower email) })

/-- The local-fallback tail of `login_user`, entered with the remembered
`(firebase_message, firebase_status)` pair when the remote path did not
succeed. -/
def login_local_path (env : Env) (st : DBState) (email password : String)
    (fb : Option (String × Nat)) : ApiResponse × DBState :=
  match authenticate_locally env st email password with
  | .ok user => (build_user_response (some user), st)
  | .fail m s =>
      match fb with
      | none => (.failure m s, st)
      | some (fm, fs) =>
          if fm ≠ "" ∧ fs ≠ 0 ∧ 500 ≤ fs then (.failure fm fs, st)
          else if s = 401 ∧ fm ≠ "" ∧ fs = 401 then (.failure fm s, st)
          else (.failure m s, st)

/-- `POST /api/users/login` (`login_user`). -/
def login_user (env : Env) (st : DBState) (email password : String) :
    ApiResponse × DBState :=
  if email = "" ∨ password = "" then
    (.failure "Email and password are required" 400, st)
  else if env.firebaseConfigured then
    match sign_in_with_firebase env email password with
    | .ok localId =>
        let r := ensure_local_user_record env st email password localId
        (build_user_response r.1, r.2)
    | .fail fm fs => login_local_path env st email password (some (fm, fs))
  else
    login_local_path env st email password none

/-! ## Helper lemmas about the dict and table models -/

theorem dictFind_insert_self (d : List (String × VerificationTicket)) (k : String)
    (t : VerificationTicket) : dictFind (dictInsert d k t) k = some t := by
  simp [dictFind, dictInsert, List.find?_cons_of_pos]

theorem dictPop_insert (d : List (String × VerificationTicket)) (k : String)
    (t : VerificationTicket) : dictPop (dictInsert d k t) k = dictPop d k := by
  simp [dictPop, dictInsert, List.filter_filter]

theorem find?_filter_not_key (d : List (String × VerificationTicket)) (k : String) :
    (d.filter (fun p => !(p.1 == k))).find? (fun p => p.1 == k) = none := by
  rw [List.find?_eq_none]
  intro x hx
  have hk := (List.mem_filter.mp hx).2
  simp only [Bool.not_eq_true'] at hk
  simp [hk]

theorem dictFind_pop_self (d : List (String × VerificationTicket)) (k : String) :
    dictFind (dictPop d k) k = none := by
  simp [dictFind, dictPop, find?_filter_not_key]

theorem filter_dictInsert_self (d : List (String × VerificationTicket)) (k : String)
    (t : VerificationTicket) :
    (dictInsert d k t).filter (fun p => p.1 == k) = [(k, t)] := by
  have hf : ∀ p : String × VerificationTicket, ((p.1 == k) && !(p.1 == k)) = false := by
    intro p
    cases h : p.1 == k <;> simp [h]
  simp [dictInsert, List.filter_cons, List.filter_filter, hf]

theorem find?_append_of_none {α : Type} (p : α → Bool) (l : List α) (a : α)
    (h : l.find? p = none) (ha : p a = true) : (l ++ [a]).find? p = some a := by
  induction l with
  | nil => simp [List.find?_cons_of_pos _ ha]
  | cons b l ih =>
      rw [List.find?_eq_none] at h
      have hb : p b = false := by
        have := h b (by simp)
        simpa using this
      rw [List.cons_append, List.find?_cons_of_neg _ (by simp [hb])]
      exact ih (by
        rw [List.find?_eq_none]
        intro x hx
        exact h x (by simp [hx]))

theorem filter_eq_nil_of_find?_none {α : Type} (p : α → Bool) (l : List α)
    (h : l.find? p = none) : l.filter p = [] := by
  rw [List.filter_eq_nil_iff]
  intro a ha
  rw [List.find?_eq_none] at h
  exact h a ha

/-! ## Branch lemmas for the registration flow -/

theorem send_verification_ok (env : Env) (st : DBState) (now : Nat)
    (code name email password phone : String)
    (hn : name ≠ "") (he : email ≠ "") (hp : password ≠ "") (hph : phone ≠ "")
    (hu : fetch_local_user st email = none)
    (hadmin : (strLower email) ≠ (strLower env.adminEmail))
    (hsend : env.sendEmailOk = true) :
    send_verification env st now code name email password phone =
      (.success none "Verification code sent to your email. Please check your inbox.",
       { st with verification_codes := dictInsert st.verification_codes (strLower email) ⟨code, now + VERIFICATION_CODE_EXPIRY, name, password, phone⟩ }) := by
  unfold send_verification
  rw [if_neg (by simp [hn, he, hp, hph]), if_neg (by simp [hu]), if_neg hadmin,
    if_pos hsend]

theorem send_verification_delivery_failed (env : Env) (st : DBState) (now : Nat)
    (code name email password phone : String)
    (hn : name ≠ "") (he : email ≠ "") (hp : password ≠ "") (hph : phone ≠ "")
    (hu : fetch_local_user st email = none)
    (hadmin : (strLower email) ≠ (strLower env.adminEmail))
    (hsend : env.sendEmailOk = false) :
    send_verification env st now code name email password phone =
      (.failure "Failed to send verification email. Please try again." 500,
       { st with verification_codes :=
           dictPop st.verification_codes (strLower email) }) := by
  unfold send_verification
  rw [if_neg (by simp [hn, he, hp, hph]), if_neg (by simp [hu]), if_neg hadmin,
    if_neg (by simp [hsend])]
  simp [dictPop_insert]

theorem register_user_not_found (env : Env) (st : DBState) (now : Nat)
    (name email password phone vc : String)
    (hn : name ≠ "") (he : email ≠ "") (hp : password ≠ "") (hph : phone ≠ "")
    (hvc : vc ≠ "")
    (hu : fetch_local_user st email = none)
    (ht : dictFind st.verification_codes (strLower email) = none) :
    register_user env st now name email password phone vc =
      (.failure "Verification code not found. Please request a new code." 400, st) := by
  unfold register_user
  rw [if_neg (by simp [hn, he, hp, hph]), if_neg hvc, if_neg (by simp [hu]), ht]

theorem register_user_expired (env : Env) (st : DBState) (now : Nat)
    (name email password phone vc : String) (t : VerificationTicket)
    (hn : name ≠ "") (he : email ≠ "") (hp : password ≠ "") (hph : phone ≠ "")
    (hvc : vc ≠ "")
    (hu : fetch_local_user st email = none)
    (ht : dictFind st.verification_codes (strLower email) = some t)
    (hexp : t.expires_at < now) :
    register_user env st now name email password phone vc =
      (.failure "Verification code has expired. Please request a new code." 400,
       { st with verification_codes :=
           dictPop st.verification_codes (strLower email) }) := by
  unfold register_user
  rw [if_neg (by simp [hn, he, hp, hph]), if_neg hvc, if_neg (by simp [hu]), ht]
  simp [hexp]

theorem register_user_code_mismatch (env : Env) (st : DBState) (now : Nat)
    (name email password phone vc : String) (t : VerificationTicket)
    (hn : name ≠ "") (he : email ≠ "") (hp : password ≠ "") (hph : phone ≠ "")
    (hvc : vc ≠ "")
    (hu : fetch_local_user st email = none)
    (ht : dictFind st.verification_codes (strLower email) = some t)
    (hexp : ¬ t.expires_at < now)
    (hcode : t.code ≠ vc) :
    register_user env st now name email password phone vc =
      (.failure "Invalid verification code. Please try again." 400, st) := by
  unfold register_user
  rw [if_neg (by simp [hn, he, hp, hph]), if_neg hvc, if_neg (by simp [hu]), ht]
  simp [hexp, hcode]

theorem register_user_data_mismatch (env : Env) (st : DBState) (now : Nat)
    (name email password phone vc : String) (t : VerificationTicket)
    (hn : name ≠ "") (he : email ≠ "") (hp : password ≠ "") (hph : phone ≠ "")
    (hvc : vc ≠ "")
    (hu : fetch_local_user st email = none)
    (ht : dictFind st.verification_codes (strLower email) = some t)
    (hexp : ¬ t.expires_at < now)
    (hcode : t.code = vc)
    (hdata : t.name ≠ name ∨ t.password ≠ password ∨ t.phone ≠ phone) :
    register_user env st now name email password phone vc =
      (.failure "Registration data mismatch. Please start over." 400, st) := by
  unfold register_user
  rw [if_neg (by simp [hn, he, hp, hph]), if_neg hvc, if_neg (by simp [hu]), ht]
  simp only [if_neg hexp, if_neg (not_not_intro hcode), if_pos hdata]

theorem register_user_success (env : Env) (st : DBState) (now : Nat)
    (name email password phone vc uid : String) (t : VerificationTicket)
    (hn : name ≠ "") (he : email ≠ "") (hp : password ≠ "") (hph : phone ≠ "")
    (hvc : vc ≠ "")
    (hu : fetch_local_user st email = none)
    (ht : dictFind st.verification_codes (strLower email) = some t)
    (hexp : ¬ t.expires_at < now)
    (hcode : t.code = vc)
    (h1 : t.name = name) (h2 : t.password = password) (h3 : t.phone = phone)
    (hacct : env.createAccount email password name.trim = .ok uid) :
    register_user env st now name email password phone vc =
      (.success (some ⟨st.nextId, name, email, phone⟩) "",
       { st with
         users := st.users ++
           [⟨st.nextId, name, email, hash_password env password, phone⟩]
         nextId := st.nextId + 1
         verification_codes :=
           dictPop st.verification_codes (strLower email) }) := by
  unfold register_user
  rw [if_neg (by simp [hn, he, hp, hph]), if_neg hvc, if_neg (by simp [hu]), ht]
  simp only [if_neg hexp, if_neg (not_not_intro hcode)]
  rw [if_neg (show ¬(t.name ≠ name ∨ t.password ≠ password ∨ t.phone ≠ phone) by
        simp [h1, h2, h3]),
    hacct]

/-! ## Branch lemmas for the authentication flow -/

theorem ensure_local_user_record_found (env : Env) (st : DBState)
    (email password : String) (uid? : Option String) (u : UserRecord)
    (hu : fetch_local_user st email = some u) :
    ensure_local_user_record env st email password uid? = (some u, st) := by
  unfold ensure_local_user_record
  rw [hu]

theorem ensure_local_user_record_fresh (env : Env) (st : DBState)
    (email password : String) (uid? : Option String)
    (hu : fetch_local_user st email = none)
    (hprof : lookupProfile env uid? = none) :
    ensure_local_user_record env st email password uid? =
      (some ⟨st.nextId, emailLocalPart email, email, hash_password env password, ""⟩,
       { st with
         users := st.users ++
           [⟨st.nextId, emailLocalPart email, email, hash_password env password, ""⟩]
         nextId := st.nextId + 1 }) := by
  unfold ensure_local_user_record
  rw [hu, hprof]
  rw [Prod.mk.injEq]
  exact ⟨find?_append_of_none _ _ _ hu (by simp), rfl⟩

theorem ensure_local_user_record_fst_isSome (env : Env) (st : DBState)
    (email password : String) (uid? : Option String) :
    ∃ u, (ensure_local_user_record env st email password uid?).1 = some u := by
  cases hu : fetch_local_user st email with
  | some u =>
      exact ⟨u, by rw [ensure_local_user_record_found env st email password uid? u hu]⟩
  | none =>
      unfold ensure_local_user_record
      rw [hu]
      dsimp only
      exact ⟨_, find?_append_of_none _ _ _ hu (by simp)⟩

theorem login_local_path_snd (env : Env) (st : DBState) (email password : String)
    (fb : Option (String × Nat)) :
    (login_local_path env st email password fb).2 = st := by
  unfold login_local_path
  cases authenticate_locally env st email password with
  | ok u => rfl
  | fail m s =>
      cases fb with
      | none => rfl
      | some p =>
          obtain ⟨fm, fs⟩ := p
          dsimp only
          split
          · rfl
          · split <;> rfl

theorem login_local_path_remote_outage (env : Env) (st : DBState)
    (email password fm m : String) (fs s : Nat)
    (hl : authenticate_locally env st email password = .fail m s)
    (hfm : fm ≠ "") (hfs : 500 ≤ fs) :
    login_local_path env st email password (some (fm, fs)) = (.failure fm fs, st) := by
  unfold login_local_path
  rw [hl]
  dsimp only
  rw [if_pos ⟨hfm, by omega, hfs⟩]

/-! ## Concrete fixtures for witnesses and counterexamples -/

/-- A nominal concrete environment: identity hash, default admin address,
no remote provider configured, reliable mail transport, provider that
accepts account creation, no profile data. -/
def testEnv : Env where
  hashp := fun s => s
  adminEmail := "admin@shophub.com"
  firebaseConfigured := false
  sendEmailOk := true
  signIn := fun _ _ => .netError
  createAccount := fun _ _ _ => .ok "uid-1"
  getProfile := fun _ => none

/-- Fresh database: no users, no outstanding tickets. -/
def emptyState : DBState := ⟨[], 1, []⟩

/-- A state holding one outstanding unexpired ticket for `eve@example.com`. -/
def ticketState : DBState :=
  ⟨[], 1, [("eve@example.com", ⟨"111111", 600, "Eve", "pw", "111"⟩)]⟩

/-- A state in which the reserved administrator address already has a
local user record (reachable via the remote-login mirror path). -/
def adminState : DBState :=
  ⟨[⟨1, "Admin", "admin@shophub.com", "hash", "1"⟩], 2, []⟩

/-! ## Registration-flow claims -/

/-- Claim C2 (amended): a Redeem whose code matches the outstanding,
unexpired ticket but whose (name, password, phone) differ from the pending
values fails with DataMismatch, but the ticket is RETAINED (the state is
unchanged), so a subsequent Redeem for the same email with the original
code does not fail with CodeNotFound. -/
theorem redeem_data_mismatch_retains_ticket (env : Env) (st : DBState) (now : Nat)
    (name email password phone vc : String) (t : VerificationTicket)
    (hn : name ≠ "") (he : email ≠ "") (hp : password ≠ "") (hph : phone ≠ "")
    (hvc : vc ≠ "")
    (hu : fetch_local_user st email = none)
    (ht : dictFind st.verification_codes (strLower email) = some t)
    (hexp : ¬ t.expires_at < now)
    (hcode : t.code = vc)
    (hdata : t.name ≠ name ∨ t.password ≠ password ∨ t.phone ≠ phone) :
    register_user env st now name email password phone vc =
      (.failure "Registration data mismatch. Please start over." 400, st) ∧
    dictFind ((register_user env st now name email password phone vc).2).verification_codes
        (strLower email) = some t := by
  have h1 := register_user_data_mismatch env st now name email password phone vc t
    hn he hp hph hvc hu ht hexp hcode hdata
  exact ⟨h1, by rw [h1]; exact ht⟩

/-- Claim C3: a Redeem with a non-matching code against an outstanding,
unexpired ticket fails with CodeMismatch and leaves the state (hence the
ticket) unchanged, and a subsequent Redeem with the correct code and
matching data still succeeds. -/
theorem redeem_code_mismatch_preserves_ticket (env : Env) (st : DBState)
    (now1 now2 : Nat) (email vc uid : String) (t : VerificationTicket)
    (hn : t.name ≠ "") (he : email ≠ "") (hp : t.password ≠ "") (hph : t.phone ≠ "")
    (hvc : vc ≠ "") (htc : t.code ≠ "")
    (hu : fetch_local_user st email = none)
    (ht : dictFind st.verification_codes (strLower email) = some t)
    (hexp1 : ¬ t.expires_at < now1)
    (hexp2 : ¬ t.expires_at < now2)
    (hcode : t.code ≠ vc)
    (hacct : env.createAccount email t.password t.name.trim = .ok uid) :
    register_user env st now1 t.name email t.password t.phone vc =
      (.failure "Invalid verification code. Please try again." 400, st) ∧
    (register_user env
        ((register_user env st now1 t.name email t.password t.phone vc).2)
        now2 t.name email t.password t.phone t.code).1 =
      .success (some ⟨st.nextId, t.name, email, t.phone⟩) "" := by
  have h1 := register_user_code_mismatch env st now1 t.name email t.password t.phone vc t
    hn he hp hph hvc hu ht hexp1 hcode
  refine ⟨h1, ?_⟩
  rw [h1]
  have h2 := register_user_success env st now2 t.name email t.password t.phone t.code uid t
    hn he hp hph htc hu ht hexp2 rfl rfl rfl rfl hacct
  rw [h2]

/-- Claim C4: a Redeem against an outstanding ticket whose expiry lies in
the past fails with CodeExpired and removes the ticket, so a subsequent
Redeem for the same email with the same code fails with CodeNotFound. -/
theorem redeem_expired_purges_ticket (env : Env) (st : DBState)
    (now1 now2 : Nat) (name email password phone vc : String) (t : VerificationTicket)
    (hn : name ≠ "") (he : email ≠ "") (hp : password ≠ "") (hph : phone ≠ "")
    (hvc : vc ≠ "")
    (hu : fetch_local_user st email = none)
    (ht : dictFind st.verification_codes (strLower email) = some t)
    (hexp : t.expires_at < now1) :
    register_user env st now1 name email password phone vc =
      (.failure "Verification code has expired. Please request a new code." 400,
       { st with verification_codes := dictPop st.verification_codes (strLower email) }) ∧
    register_user env ((register_user env st now1 name email password phone vc).2)
        now2 name email password phone vc =
      (.failure "Verification code not found. Please request a new code." 400,
       (register_user env st now1 name email password phone vc).2) := by
  have h1 := register_user_expired env st now1 name email password phone vc t
    hn he hp hph hvc hu ht hexp
  refine ⟨h1, ?_⟩
  rw [h1]
  exact register_user_not_found env _ now2 name email password phone vc
    hn he hp hph hvc hu (dictFind_pop_self _ _)

/-- Claim C5 (amended): when delivery of the verification email fails, the
just-stored ticket is rolled back (no ticket remains outstanding for the
email) and the operation fails with DeliveryFailed, which the code reports
with HTTP status 500 (a server-error status, not a 400-class one). -/
theorem delivery_failure_rolls_back_ticket (env : Env) (st : DBState) (now : Nat)
    (code name email password phone : String)
    (hn : name ≠ "") (he : email ≠ "") (hp : password ≠ "") (hph : phone ≠ "")
    (hu : fetch_local_user st email = none)
    (hadmin : (strLower email) ≠ (strLower env.adminEmail))
    (hsend : env.sendEmailOk = false) :
    (send_verification env st now code name email password phone).1 =
      .failure "Failed to send verification email. Please try again." 500 ∧
    dictFind ((send_verification env st now code name email password phone).2).verification_codes
        (strLower email) = none := by
  have h1 := send_verification_delivery_failed env st now code name email password phone
    hn he hp hph hu hadmin hsend
  rw [h1]
  exact ⟨rfl, dictFind_pop_self _ _⟩

/-- Claim C6: a second RequestVerification for the same email replaces the
first ticket entirely (the ticket table holds exactly the second ticket for
that lower-cased email, no merge), so a Redeem presenting the first ticket
code afterwards fails with CodeMismatch. -/
theorem second_request_replaces_ticket (env : Env) (st : DBState)
    (now1 now2 now3 : Nat)
    (code1 code2 name1 password1 phone1 name2 password2 phone2 email : String)
    (hn1 : name1 ≠ "") (hp1 : password1 ≠ "") (hph1 : phone1 ≠ "")
    (hn2 : name2 ≠ "") (hp2 : password2 ≠ "") (hph2 : phone2 ≠ "")
    (he : email ≠ "") (hc1 : code1 ≠ "") (hcc : code1 ≠ code2)
    (hu : fetch_local_user st email = none)
    (hadmin : (strLower email) ≠ (strLower env.adminEmail))
    (hsend : env.sendEmailOk = true)
    (htime : now3 ≤ now2 + VERIFICATION_CODE_EXPIRY) :
    (((send_verification env
        (send_verification env st now1 code1 name1 email password1 phone1).2
        now2 code2 name2 email password2 phone2).2).verification_codes.filter
        (fun p => p.1 == (strLower email))) =
      [((strLower email), ⟨code2, now2 + VERIFICATION_CODE_EXPIRY, name2, password2, phone2⟩)] ∧
    (register_user env
        ((send_verification env
            (send_verification env st now1 code1 name1 email password1 phone1).2
            now2 code2 name2 email password2 phone2).2)
        now3 name2 email password2 phone2 code1).1 =
      .failure "Invalid verification code. Please try again." 400 := by
  have h1 := send_verification_ok env st now1 code1 name1 email password1 phone1
    hn1 he hp1 hph1 hu hadmin hsend
  have h2 := send_verification_ok env
    { st with verification_codes := dictInsert st.verification_codes (strLower email) ⟨code1, now1 + VERIFICATION_CODE_EXPIRY, name1, password1, phone1⟩ }
    now2 code2 name2 email password2 phone2 hn2 he hp2 hph2 hu hadmin hsend
  have h3 := register_user_code_mismatch env
    { st with verification_codes := dictInsert (dictInsert st.verification_codes (strLower email) ⟨code1, now1 + VERIFICATION_CODE_EXPIRY, name1, password1, phone1⟩) (strLower email) ⟨code2, now2 + VERIFICATION_CODE_EXPIRY, name2, password2, phone2⟩ }
    now3 name2 email password2 phone2 code1
    ⟨code2, now2 + VERIFICATION_CODE_EXPIRY, name2, password2, phone2⟩
    hn2 he hp2 hph2 hc1 hu (dictFind_insert_self _ _ _)
    (Nat.not_lt.mpr htime) (fun h => hcc h.symm)
  rw [h1]
  dsimp only
  rw [h2]
  dsimp only
  refine ⟨filter_dictInsert_self _ _ _, ?_⟩
  rw [h3]

/-- Claim C7 (amended): with all fields present, RequestVerification for
the reserved administrator address (case-insensitive) always fails with
status 400 and leaves the state unchanged, but the message is
ReservedEmail only when the address is absent from the credential store;
when a record exists for it, the earlier already-registered check fires
and the failure is AlreadyRegistered instead. -/
theorem reserved_email_request_always_fails (env : Env) (st : DBState) (now : Nat)
    (code name email password phone : String)
    (hn : name ≠ "") (he : email ≠ "") (hp : password ≠ "") (hph : phone ≠ "")
    (hadmin : (strLower email) = (strLower env.adminEmail)) :
    send_verification env st now code name email password phone =
      (.failure
        (if (fetch_local_user st email).isSome then "Email already registered"
         else "This email is reserved for admin use.") 400, st) := by
  by_cases hu : (fetch_local_user st email).isSome = true
  · unfold send_verification
    rw [if_neg (by simp [hn, he, hp, hph]), if_pos hu, if_pos hu]
  · unfold send_verification
    rw [if_neg (by simp [hn, he, hp, hph]), if_neg hu, if_pos hadmin,
      if_neg (by simpa using hu)]

/-- Claim C1 (amended): for an email absent from the credential store and
distinct (case-insensitively) from the reserved administrator address,
with all fields and the code non-empty, the verification email delivered,
the provider accepting the account creation, and the redemption happening
no later than the expiry instant, RequestVerification followed by Redeem
with the stored code and identical (name, password, phone) succeeds, and
afterwards exactly one LocalUserRecord exists for the email, carrying the
submitted name, email and phone (and the hashed password). -/
theorem request_then_redeem_creates_unique_record (env : Env) (st : DBState)
    (now1 now2 : Nat) (code name email password phone uid : String)
    (hn : name ≠ "") (he : email ≠ "") (hp : password ≠ "") (hph : phone ≠ "")
    (hc : code ≠ "")
    (hu : fetch_local_user st email = none)
    (hadmin : (strLower email) ≠ (strLower env.adminEmail))
    (hsend : env.sendEmailOk = true)
    (hacct : env.createAccount email password name.trim = .ok uid)
    (htime : now2 ≤ now1 + VERIFICATION_CODE_EXPIRY) :
    (send_verification env st now1 code name email password phone).1 =
      .success none "Verification code sent to your email. Please check your inbox." ∧
    (register_user env (send_verification env st now1 code name email password phone).2
        now2 name email password phone code).1 =
      .success (some ⟨st.nextId, name, email, phone⟩) "" ∧
    ((register_user env (send_verification env st now1 code name email password phone).2
        now2 name email password phone code).2).users.filter
        (fun u => u.email == email) =
      [⟨st.nextId, name, email, hash_password env password, phone⟩] := by
  have h1 := send_verification_ok env st now1 code name email password phone
    hn he hp hph hu hadmin hsend
  have h2 := register_user_success env
    { st with verification_codes := dictInsert st.verification_codes (strLower email) ⟨code, now1 + VERIFICATION_CODE_EXPIRY, name, password, phone⟩ }
    now2 name email password phone code uid
    ⟨code, now1 + VERIFICATION_CODE_EXPIRY, name, password, phone⟩
    hn he hp hph hc hu (dictFind_insert_self _ _ _)
    (Nat.not_lt.mpr htime) rfl rfl rfl rfl hacct
  rw [h1]
  dsimp only
  rw [h2]
  refine ⟨rfl, rfl, ?_⟩
  dsimp only
  rw [List.filter_append, filter_eq_nil_of_find?_none _ _ hu]
  simp

/-! ## Authentication-flow claims -/

/-- Claim C8: when the remote provider is configured, the remote sign-in
fails with a non-empty message and a status of at least 500, and the local
path also fails, the unified login failure carries the remote message and
status, not the local 401. -/
theorem login_prefers_remote_outage_status (env : Env) (st : DBState)
    (email password fm m : String) (fs s : Nat)
    (he : email ≠ "") (hp : password ≠ "")
    (hconf : env.firebaseConfigured = true)
    (hsign : sign_in_with_firebase env email password = .fail fm fs)
    (hfm : fm ≠ "") (hfs : 500 ≤ fs)
    (hlocal : authenticate_locally env st email password = .fail m s) :
    login_user env st email password = (.failure fm fs, st) := by
  unfold login_user
  rw [if_neg (by simp [he, hp]), if_pos hconf, hsign]
  exact login_local_path_remote_outage env st email password fm m fs s hlocal hfm hfs

/-- Claim C9: a first remote-successful login for an email with no local
record (and no provider profile data) creates exactly one LocalUserRecord,
with name defaulting to the email local-part and phone to empty, and a
repeated successful login returns the same sanitized record without
creating a duplicate or changing state. -/
theorem login_remote_success_mirrors_once (env : Env) (st : DBState)
    (email password : String) (luid : Option String)
    (he : email ≠ "") (hp : password ≠ "")
    (hconf : env.firebaseConfigured = true)
    (hsign : sign_in_with_firebase env email password = .ok luid)
    (hprof : lookupProfile env luid = none)
    (hu : fetch_local_user st email = none) :
    (login_user env st email password).1 =
      .success (some ⟨st.nextId, emailLocalPart email, email, ""⟩) "" ∧
    ((login_user env st email password).2).users.filter (fun u => u.email == email) =
      [⟨st.nextId, emailLocalPart email, email, hash_password env password, ""⟩] ∧
    login_user env ((login_user env st email password).2) email password =
      ((login_user env st email password).1, (login_user env st email password).2) := by
  have hens := ensure_local_user_record_fresh env st email password luid hu hprof
  have hrun : login_user env st email password =
      (build_user_response (some ⟨st.nextId, emailLocalPart email, email,
          hash_password env password, ""⟩),
       { st with
         users := st.users ++
           [⟨st.nextId, emailLocalPart email, email, hash_password env password, ""⟩]
         nextId := st.nextId + 1 }) := by
    unfold login_user
    rw [if_neg (by simp [he, hp]), if_pos hconf, hsign]
    dsimp only
    rw [hens]
  have hfound : fetch_local_user
      { st with
        users := st.users ++
          [⟨st.nextId, emailLocalPart email, email, hash_password env password, ""⟩]
        nextId := st.nextId + 1 } email =
      some ⟨st.nextId, emailLocalPart email, email, hash_password env password, ""⟩ :=
    find?_append_of_none _ _ _ hu (by simp)
  have hrun2 : login_user env
      { st with
        users := st.users ++
          [⟨st.nextId, emailLocalPart email, email, hash_password env password, ""⟩]
        nextId := st.nextId + 1 } email password =
      (build_user_response (some ⟨st.nextId, emailLocalPart email, email,
          hash_password env password, ""⟩),
       { st with
         users := st.users ++
           [⟨st.nextId, emailLocalPart email, email, hash_password env password, ""⟩]
         nextId := st.nextId + 1 }) := by
    unfold login_user
    rw [if_neg (by simp [he, hp]), if_pos hconf, hsign]
    dsimp only
    rw [ensure_local_user_record_found env _ email password luid _ hfound]
  rw [hrun]
  dsimp only
  refine ⟨rfl, ?_, ?_⟩
  · rw [List.filter_append, filter_eq_nil_of_find?_none _ _ hu]
    simp
  · rw [hrun2]

/-- Claim C10: a login call that returns a failure outcome leaves the users
table and the verification-ticket table exactly as they were; whenever the
state changes, the response is a success produced by the remote-provider
path (the local mirror creation). -/
theorem failed_login_preserves_state (env : Env) (st : DBState)
    (email password : String) (r : ApiResponse) (st' : DBState)
    (h : login_user env st email password = (r, st')) :
    (∀ m s, r = .failure m s → st' = st) ∧
    (st' ≠ st → env.firebaseConfigured = true ∧
      (∃ lid, sign_in_with_firebase env email password = .ok lid) ∧
      (∃ u, r = .success (some u) "")) := by
  unfold login_user at h
  by_cases hm : email = "" ∨ password = ""
  · rw [if_pos hm] at h
    injection h with h1 h2
    subst h1
    subst h2
    exact ⟨fun _ _ _ => rfl, fun hne => absurd rfl hne⟩
  · rw [if_neg hm] at h
    by_cases hconf : env.firebaseConfigured = true
    · rw [if_pos hconf] at h
      cases hs : sign_in_with_firebase env email password with
      | ok lid =>
          rw [hs] at h
          dsimp only at h
          obtain ⟨u, hu⟩ := ensure_local_user_record_fst_isSome env st email password lid
          rw [hu] at h
          injection h with h1 h2
          subst h1
          subst h2
          constructor
          · intro m s hr
            simp [build_user_response] at hr
          · intro _
            exact ⟨hconf, ⟨lid, rfl⟩, ⟨_, rfl⟩⟩
      | fail fm fs =>
          rw [hs] at h
          dsimp only at h
          have hsnd := congrArg Prod.snd h
          rw [login_local_path_snd] at hsnd
          exact ⟨fun _ _ _ => hsnd.symm, fun hne => absurd hsnd.symm hne⟩
    · rw [if_neg hconf] at h
      have hsnd := congrArg Prod.snd h
      rw [login_local_path_snd] at hsnd
      exact ⟨fun _ _ _ => hsnd.symm, fun hne => absurd hsnd.symm hne⟩

/-! ## Counterexamples refuting the claims as literally stated -/

/-- Claim C1 counterexample: the reserved administrator address is an email
absent from the credential store for which RequestVerification fails, the
immediate Redeem fails, and no LocalUserRecord is created — refuting the
claim quantified over all emails not present in the CredentialStore. -/
theorem request_then_redeem_fails_for_reserved_email :
    fetch_local_user emptyState "admin@shophub.com" = none ∧
    (send_verification testEnv emptyState 0 "123456" "Eve" "admin@shophub.com" "pw" "1").1 =
      .failure "This email is reserved for admin use." 400 ∧
    (register_user testEnv
        (send_verification testEnv emptyState 0 "123456" "Eve" "admin@shophub.com" "pw" "1").2
        1 "Eve" "admin@shophub.com" "pw" "1" "123456").1 =
      .failure "Verification code not found. Please request a new code." 400 ∧
    ((register_user testEnv
        (send_verification testEnv emptyState 0 "123456" "Eve" "admin@shophub.com" "pw" "1").2
        1 "Eve" "admin@shophub.com" "pw" "1" "123456").2).users.filter
        (fun u => u.email == "admin@shophub.com") = [] := by
  decide

/-- Claim C2 counterexample: a Redeem with the correct code but an altered
phone fails with DataMismatch, yet the ticket is still outstanding
afterwards, and the subsequent Redeem with the original code yields
DataMismatch again, not CodeNotFound — refuting the claimed ticket
removal. -/
theorem redeem_data_mismatch_purge_refuted :
    register_user testEnv ticketState 0 "Eve" "eve@example.com" "pw" "222" "111111" =
      (.failure "Registration data mismatch. Please start over." 400, ticketState) ∧
    dictFind ((register_user testEnv ticketState 0 "Eve" "eve@example.com" "pw" "222"
        "111111").2).verification_codes "eve@example.com" =
      some ⟨"111111", 600, "Eve", "pw", "111"⟩ ∧
    (register_user testEnv
        ((register_user testEnv ticketState 0 "Eve" "eve@example.com" "pw" "222" "111111").2)
        0 "Eve" "eve@example.com" "pw" "222" "111111").1 ≠
      .failure "Verification code not found. Please request a new code." 400 := by
  decide

/-- Claim C5 counterexample: on Notifier delivery failure the operation
fails with HTTP status 500, which is not a 400-class status — refuting the
claimed 400-class classification of DeliveryFailed. -/
theorem delivery_failure_status_not_400_class :
    (send_verification { testEnv with sendEmailOk := false } emptyState 0 "123456"
        "Bob" "bob@example.com" "pw" "1").1 =
      .failure "Failed to send verification email. Please try again." 500 ∧
    ¬ (400 ≤ 500 ∧ (500 : Nat) < 500) := by
  decide

/-- Claim C7 counterexample: when the reserved administrator address is
present in the credential store, RequestVerification for it fails with the
AlreadyRegistered message, not ReservedEmail — refuting the claimed
independence from CredentialStore state. -/
theorem reserved_email_not_independent_of_store :
    fetch_local_user adminState "admin@shophub.com" ≠ none ∧
    (send_verification testEnv adminState 0 "123456" "Eve" "admin@shophub.com" "pw" "1").1 =
      .failure "Email already registered" 400 ∧
    (send_verification testEnv adminState 0 "123456" "Eve" "admin@shophub.com" "pw" "1").1 ≠
      .failure "This email is reserved for admin use." 400 := by
  decide

/-! ## Concrete witnesses exercising each claim theorem -/

/-- The nominal environment with the remote provider configured but its
network failing. -/
def outageEnv : Env := { testEnv with firebaseConfigured := true }

/-- The nominal environment with the remote provider configured and
authenticating every request under subject id `uid-9`. -/
def remoteOkEnv : Env :=
  { testEnv with firebaseConfigured := true, signIn := fun _ _ => .reply 200 (some "uid-9") none }

/-- The nominal environment with a failing mail transport. -/
def noMailEnv : Env := { testEnv with sendEmailOk := false }

/-- Witness for claim C1 at a concrete fresh email. -/
theorem request_then_redeem_creates_unique_record_witness :
    ("Alice" : String) ≠ "" ∧ ("alice@example.com" : String) ≠ "" ∧
    ("pw1" : String) ≠ "" ∧ ("9999" : String) ≠ "" ∧ ("123456" : String) ≠ "" ∧
    fetch_local_user emptyState "alice@example.com" = none ∧
    (strLower "alice@example.com") ≠ (strLower testEnv.adminEmail) ∧
    testEnv.sendEmailOk = true ∧
    testEnv.createAccount "alice@example.com" "pw1" ("Alice".trim) = .ok "uid-1" ∧
    5 ≤ 0 + VERIFICATION_CODE_EXPIRY ∧
    ((send_verification testEnv emptyState 0 "123456" "Alice" "alice@example.com" "pw1" "9999").1 =
      .success none "Verification code sent to your email. Please check your inbox." ∧
     (register_user testEnv
        (send_verification testEnv emptyState 0 "123456" "Alice" "alice@example.com" "pw1" "9999").2
        5 "Alice" "alice@example.com" "pw1" "9999" "123456").1 =
      .success (some ⟨1, "Alice", "alice@example.com", "9999"⟩) "" ∧
     ((register_user testEnv
        (send_verification testEnv emptyState 0 "123456" "Alice" "alice@example.com" "pw1" "9999").2
        5 "Alice" "alice@example.com" "pw1" "9999" "123456").2).users.filter
        (fun u => u.email == "alice@example.com") =
      [⟨1, "Alice", "alice@example.com", hash_password testEnv "pw1", "9999"⟩]) :=
  ⟨by decide, by decide, by decide, by decide, by decide, by decide, by decide,
   by decide, by decide, by decide,
   request_then_redeem_creates_unique_record testEnv emptyState 0 5 "123456" "Alice"
     "alice@example.com" "pw1" "9999" "uid-1" (by decide) (by decide) (by decide)
     (by decide) (by decide) (by decide) (by decide) (by decide) (by decide) (by decide)⟩

/-- Witness for claim C2 at a concrete ticket with an altered phone. -/
theorem redeem_data_mismatch_retains_ticket_witness :
    ("Eve" : String) ≠ "" ∧ ("eve@example.com" : String) ≠ "" ∧
    ("pw" : String) ≠ "" ∧ ("222" : String) ≠ "" ∧ ("111111" : String) ≠ "" ∧
    fetch_local_user ticketState "eve@example.com" = none ∧
    dictFind ticketState.verification_codes (strLower "eve@example.com") =
      some ⟨"111111", 600, "Eve", "pw", "111"⟩ ∧
    ¬ (600 : Nat) < 0 ∧
    ("111111" : String) = "111111" ∧
    (("Eve" : String) ≠ "Eve" ∨ ("pw" : String) ≠ "pw" ∨ ("111" : String) ≠ "222") ∧
    (register_user testEnv ticketState 0 "Eve" "eve@example.com" "pw" "222" "111111" =
      (.failure "Registration data mismatch. Please start over." 400, ticketState) ∧
     dictFind ((register_user testEnv ticketState 0 "Eve" "eve@example.com" "pw" "222"
        "111111").2).verification_codes (strLower "eve@example.com") =
      some ⟨"111111", 600, "Eve", "pw", "111"⟩) :=
  ⟨by decide, by decide, by decide, by decide, by decide, by decide, by decide,
   by decide, by decide, by decide,
   redeem_data_mismatch_retains_ticket testEnv ticketState 0 "Eve" "eve@example.com"
     "pw" "222" "111111" ⟨"111111", 600, "Eve", "pw", "111"⟩ (by decide) (by decide)
     (by decide) (by decide) (by decide) (by decide) (by decide) (by decide) (by decide)
     (by decide)⟩

/-- Witness for claim C3 at a concrete ticket and a wrong code. -/
theorem redeem_code_mismatch_preserves_ticket_witness :
    ("Eve" : String) ≠ "" ∧ ("eve@example.com" : String) ≠ "" ∧
    ("pw" : String) ≠ "" ∧ ("111" : String) ≠ "" ∧ ("999999" : String) ≠ "" ∧
    ("111111" : String) ≠ "" ∧
    fetch_local_user ticketState "eve@example.com" = none ∧
    dictFind ticketState.verification_codes (strLower "eve@example.com") =
      some ⟨"111111", 600, "Eve", "pw", "111"⟩ ∧
    ¬ (600 : Nat) < 0 ∧
    ("111111" : String) ≠ "999999" ∧
    testEnv.createAccount "eve@example.com" "pw" ("Eve".trim) = .ok "uid-1" ∧
    (register_user testEnv ticketState 0 "Eve" "eve@example.com" "pw" "111" "999999" =
      (.failure "Invalid verification code. Please try again." 400, ticketState) ∧
     (register_user testEnv
        ((register_user testEnv ticketState 0 "Eve" "eve@example.com" "pw" "111" "999999").2)
        0 "Eve" "eve@example.com" "pw" "111" "111111").1 =
      .success (some ⟨1, "Eve", "eve@example.com", "111"⟩) "") :=
  ⟨by decide, by decide, by decide, by decide, by decide, by decide, by decide,
   by decide, by decide, by decide, by decide,
   redeem_code_mismatch_preserves_ticket testEnv ticketState 0 0 "eve@example.com"
     "999999" "uid-1" ⟨"111111", 600, "Eve", "pw", "111"⟩ (by decide) (by decide)
     (by decide) (by decide) (by decide) (by decide) (by decide) (by decide) (by decide)
     (by decide) (by decide) (by decide)⟩

/-- Witness for claim C4 at a concrete expired ticket. -/
theorem redeem_expired_purges_ticket_witness :
    ("Eve" : String) ≠ "" ∧ ("eve@example.com" : String) ≠ "" ∧
    ("pw" : String) ≠ "" ∧ ("111" : String) ≠ "" ∧ ("111111" : String) ≠ "" ∧
    fetch_local_user ticketState "eve@example.com" = none ∧
    dictFind ticketState.verification_codes (strLower "eve@example.com") =
      some ⟨"111111", 600, "Eve", "pw", "111"⟩ ∧
    (600 : Nat) < 601 ∧
    (register_user testEnv ticketState 601 "Eve" "eve@example.com" "pw" "111" "111111" =
      (.failure "Verification code has expired. Please request a new code." 400,
       { ticketState with verification_codes := dictPop ticketState.verification_codes (strLower "eve@example.com") }) ∧
     register_user testEnv
        ((register_user testEnv ticketState 601 "Eve" "eve@example.com" "pw" "111" "111111").2)
        602 "Eve" "eve@example.com" "pw" "111" "111111" =
      (.failure "Verification code not found. Please request a new code." 400,
       (register_user testEnv ticketState 601 "Eve" "eve@example.com" "pw" "111" "111111").2)) :=
  ⟨by decide, by decide, by decide, by decide, by decide, by decide, by decide, by decide,
   redeem_expired_purges_ticket testEnv ticketState 601 602 "Eve" "eve@example.com"
     "pw" "111" "111111" ⟨"111111", 600, "Eve", "pw", "111"⟩ (by decide) (by decide)
     (by decide) (by decide) (by decide) (by decide) (by decide) (by decide)⟩

/-- Witness for claim C5 at a concrete delivery failure. -/
theorem delivery_failure_rolls_back_ticket_witness :
    ("Bob" : String) ≠ "" ∧ ("bob@example.com" : String) ≠ "" ∧
    ("pw" : String) ≠ "" ∧ ("1" : String) ≠ "" ∧
    fetch_local_user emptyState "bob@example.com" = none ∧
    (strLower "bob@example.com") ≠ (strLower noMailEnv.adminEmail) ∧
    noMailEnv.sendEmailOk = false ∧
    ((send_verification noMailEnv emptyState 0 "123456" "Bob" "bob@example.com" "pw" "1").1 =
      .failure "Failed to send verification email. Please try again." 500 ∧
     dictFind ((send_verification noMailEnv emptyState 0 "123456" "Bob" "bob@example.com"
        "pw" "1").2).verification_codes (strLower "bob@example.com") = none) :=
  ⟨by decide, by decide, by decide, by decide, by decide, by decide, by decide,
   delivery_failure_rolls_back_ticket noMailEnv emptyState 0 "123456" "Bob"
     "bob@example.com" "pw" "1" (by decide) (by decide) (by decide) (by decide)
     (by decide) (by decide) (by decide)⟩

/-- Witness for claim C6 at two concrete requests with distinct codes. -/
theorem second_request_replaces_ticket_witness :
    ("A" : String) ≠ "" ∧ ("p1" : String) ≠ "" ∧ ("11" : String) ≠ "" ∧
    ("B" : String) ≠ "" ∧ ("p2" : String) ≠ "" ∧ ("22" : String) ≠ "" ∧
    ("carol@example.com" : String) ≠ "" ∧ ("111111" : String) ≠ "" ∧
    ("111111" : String) ≠ "222222" ∧
    fetch_local_user emptyState "carol@example.com" = none ∧
    (strLower "carol@example.com") ≠ (strLower testEnv.adminEmail) ∧
    testEnv.sendEmailOk = true ∧
    2 ≤ 1 + VERIFICATION_CODE_EXPIRY ∧
    ((((send_verification testEnv
        (send_verification testEnv emptyState 0 "111111" "A" "carol@example.com" "p1" "11").2
        1 "222222" "B" "carol@example.com" "p2" "22").2).verification_codes.filter
        (fun p => p.1 == (strLower "carol@example.com"))) =
      [((strLower "carol@example.com"),
        ⟨"222222", 1 + VERIFICATION_CODE_EXPIRY, "B", "p2", "22"⟩)] ∧
     (register_user testEnv
        ((send_verification testEnv
            (send_verification testEnv emptyState 0 "111111" "A" "carol@example.com" "p1" "11").2
            1 "222222" "B" "carol@example.com" "p2" "22").2)
        2 "B" "carol@example.com" "p2" "22" "111111").1 =
      .failure "Invalid verification code. Please try again." 400) :=
  ⟨by decide, by decide, by decide, by decide, by decide, by decide, by decide,
   by decide, by decide, by decide, by decide, by decide, by decide,
   second_request_replaces_ticket testEnv emptyState 0 1 2 "111111" "222222" "A" "p1"
     "11" "B" "p2" "22" "carol@example.com" (by decide) (by decide) (by decide)
     (by decide) (by decide) (by decide) (by decide) (by decide) (by decide) (by decide)
     (by decide) (by decide) (by decide)⟩

/-- Witness for claim C7 at a case-varied spelling of the reserved address,
with the store both lacking it (second conjunct shows the exact outcome). -/
theorem reserved_email_request_always_fails_witness :
    ("Mallory" : String) ≠ "" ∧ ("Admin@ShopHub.com" : String) ≠ "" ∧
    ("pw" : String) ≠ "" ∧ ("7" : String) ≠ "" ∧
    (strLower "Admin@ShopHub.com") = (strLower testEnv.adminEmail) ∧
    send_verification testEnv adminState 0 "123456" "Mallory" "Admin@ShopHub.com" "pw" "7" =
      (.failure
        (if (fetch_local_user adminState "Admin@ShopHub.com").isSome then
          "Email already registered"
         else "This email is reserved for admin use.") 400, adminState) :=
  ⟨by decide, by decide, by decide, by decide, by decide,
   reserved_email_request_always_fails testEnv adminState 0 "123456" "Mallory"
     "Admin@ShopHub.com" "pw" "7" (by decide) (by decide) (by decide) (by decide)
     (by decide)⟩

/-- Witness for claim C8 at a concrete remote outage with a local miss. -/
theorem login_prefers_remote_outage_status_witness :
    ("dave@example.com" : String) ≠ "" ∧ ("pw" : String) ≠ "" ∧
    outageEnv.firebaseConfigured = true ∧
    sign_in_with_firebase outageEnv "dave@example.com" "pw" =
      .fail "Authentication service is unreachable. Please try again shortly." 503 ∧
    ("Authentication service is unreachable. Please try again shortly." : String) ≠ "" ∧
    (500 : Nat) ≤ 503 ∧
    authenticate_locally outageEnv emptyState "dave@example.com" "pw" =
      .fail "Invalid email or password" 401 ∧
    login_user outageEnv emptyState "dave@example.com" "pw" =
      (.failure "Authentication service is unreachable. Please try again shortly." 503,
       emptyState) :=
  ⟨by decide, by decide, by decide, by decide, by decide, by decide, by decide,
   login_prefers_remote_outage_status outageEnv emptyState "dave@example.com" "pw"
     "Authentication service is unreachable. Please try again shortly."
     "Invalid email or password" 503 401 (by decide) (by decide) (by decide) (by decide)
     (by decide) (by decide) (by decide)⟩

/-- Witness for claim C9 at a concrete remote-successful first login. -/
theorem login_remote_success_mirrors_once_witness :
    ("erin@example.com" : String) ≠ "" ∧ ("pw" : String) ≠ "" ∧
    remoteOkEnv.firebaseConfigured = true ∧
    sign_in_with_firebase remoteOkEnv "erin@example.com" "pw" = .ok (some "uid-9") ∧
    lookupProfile remoteOkEnv (some "uid-9") = none ∧
    fetch_local_user emptyState "erin@example.com" = none ∧
    ((login_user remoteOkEnv emptyState "erin@example.com" "pw").1 =
      .success (some ⟨1, emailLocalPart "erin@example.com", "erin@example.com", ""⟩) "" ∧
     ((login_user remoteOkEnv emptyState "erin@example.com" "pw").2).users.filter
        (fun u => u.email == "erin@example.com") =
      [⟨1, emailLocalPart "erin@example.com", "erin@example.com",
        hash_password remoteOkEnv "pw", ""⟩] ∧
     login_user remoteOkEnv ((login_user remoteOkEnv emptyState "erin@example.com" "pw").2)
        "erin@example.com" "pw" =
      ((login_user remoteOkEnv emptyState "erin@example.com" "pw").1,
       (login_user remoteOkEnv emptyState "erin@example.com" "pw").2)) :=
  ⟨by decide, by decide, by decide, by decide, by decide, by decide,
   login_remote_success_mirrors_once remoteOkEnv emptyState "erin@example.com" "pw"
     (some "uid-9") (by decide) (by decide) (by decide) (by decide) (by decide)
     (by decide)⟩

/-- Witness for claim C10 at a concrete failing login. -/
theorem failed_login_preserves_state_witness :
    login_user testEnv emptyState "frank@example.com" "pw" =
      (.failure "Invalid email or password" 401, emptyState) ∧
    ((∀ m s, (ApiResponse.failure "Invalid email or password" 401) = .failure m s →
        emptyState = emptyState) ∧
     (emptyState ≠ emptyState → testEnv.firebaseConfigured = true ∧
       (∃ lid, sign_in_with_firebase testEnv "frank@example.com" "pw" = .ok lid) ∧
       (∃ u, (ApiResponse.failure "Invalid email or password" 401) =
         .success (some u) ""))) :=
  ⟨by decide,
   failed_login_preserves_state testEnv emptyState "frank@example.com" "pw"
     (.failure "Invalid email or password" 401) emptyState (by decide)⟩

end ShopHub
